import Mathlib

/-!
Shallow embedding of the quarto-backend session-orchestration layer
(src/quarto_backend): the `Game` session aggregate (game/game.py), the
in-memory session registry (db.py) and the socket handlers
(socket/handler.py).  The board-game rules engine (quarto_lib) is an
external collaborator consumed only through its interface; it is
represented by an abstract `Engine` record of operations, so theorems
about the orchestration layer quantify over every possible engine.
Randomness (random.choice, random.choices, seat shuffling) and the
remote agent's network responses are passed in as explicit oracle
parameters.  Python exceptions are rendered as `Except String`.
-/

namespace QB

/-- Decidable equality of `Except` outcomes, so concrete handler runs can
be checked by `decide`. -/
instance {ε α : Type} [DecidableEq ε] [DecidableEq α] :
    DecidableEq (Except ε α)
  | .error e, .error f =>
    if h : e = f then .isTrue (by rw [h]) else .isFalse (by simp [h])
  | .error _, .ok _ => .isFalse (by simp)
  | .ok _, .error _ => .isFalse (by simp)
  | .ok a, .ok b =>
    if h : a = b then .isTrue (by rw [h]) else .isFalse (by simp [h])

/-- Piece values (quarto_lib pieces serialize to ints via `.value`). -/
abbrev Piece := Nat

/-- Board cells (row, column). -/
abbrev Cell := Nat × Nat

/-- The engine's turn phase enum (`Turn` from quarto_lib): CHOICE = a piece
is being selected for the opponent, PLACEMENT = the current piece is being
placed. -/
inductive Turn where
  | CHOICE
  | PLACEMENT
deriving DecidableEq, Repr

/-- `Turn.value` as serialized into the state-update payload. -/
def Turn.val : Turn → Nat
  | .CHOICE => 0
  | .PLACEMENT => 1

/-- Modelled from the spec: the external board-game rules engine
(quarto_lib's `Game`, out of scope of this repository and consumed only at
its interface).  `σ` is the opaque engine state; the fields are the
operations the orchestration layer calls: current phase, engine-side
current player index, current piece, board, availability lists, winner,
game-over flag, winning lines, and the two fallible mutators
`choose_piece` / `place_piece` (a `ValueError` rejection is `.error`). -/
structure Engine (σ : Type) where
  current_turn : σ → Turn
  current_player : σ → Fin 2
  current_piece : σ → Option Piece
  board : σ → List (List (Option Piece))
  available_pieces : σ → List Piece
  available_cells : σ → List Cell
  winner : σ → Option (Fin 2)
  is_game_over : σ → Bool
  winning_lines : σ → List (List Cell)
  choose_piece : σ → Piece → Except String σ
  place_piece : σ → Cell → Except String σ

/-- The per-room session aggregate, `Game` from game/game.py: two optional
seats, the engine state, the start timestamp (None until started) and the
optional agent identifier (`self._agent`, None for human-vs-human). -/
structure Game (σ : Type) where
  id : String
  players : List (Option String)
  engine : σ
  start_timestamp : Option Nat
  agent : Option String
deriving DecidableEq, Repr

namespace Game

/-- `Game.__init__`: fresh seats `[None, None]`, a fresh engine, no start
timestamp, no agent.  The source takes NO id argument and sets
`self._id = uuid.uuid4()`; the fresh uuid string is passed in here as the
explicit `uuidStr` oracle. -/
def init (σ : Type) (uuidStr : String) (fresh : σ) : Game σ :=
  { id := uuidStr, players := [none, none], engine := fresh,
    start_timestamp := none, agent := none }

/-- `Game.is_started`: whether `self._start_timestamp is not None`. -/
def is_started (g : Game σ) : Bool :=
  g.start_timestamp.isSome

/-- `Game.is_pve`: whether `self._agent is not None`. -/
def is_pve (g : Game σ) : Bool :=
  g.agent.isSome

/-- `Game.is_full`: all seats occupied. -/
def is_full (g : Game σ) : Bool :=
  g.players.all (fun p => p.isSome)

/-- `Game.is_empty`: all seats vacant. -/
def is_empty (g : Game σ) : Bool :=
  g.players.all (fun p => p.isNone)

/-- `Game.has_player`: `player_id in self._players`. -/
def has_player (g : Game σ) (pid : String) : Bool :=
  g.players.contains (some pid)

/-- `Game.current_player`: None before start, otherwise the seat the
engine designates (`self._players[self._game.current_player]`). -/
def current_player (E : Engine σ) (g : Game σ) : Option String :=
  if g.is_started then g.players.getD (E.current_player g.engine).val none
  else none

/-- `Game.current_turn` (delegates to the engine). -/
def current_turn (E : Engine σ) (g : Game σ) : Turn :=
  E.current_turn g.engine

/-- `Game.current_piece` (delegates to the engine). -/
def current_piece (E : Engine σ) (g : Game σ) : Option Piece :=
  E.current_piece g.engine

/-- `Game.available_pieces` (delegates to the engine). -/
def available_pieces (E : Engine σ) (g : Game σ) : List Piece :=
  E.available_pieces g.engine

/-- `Game.available_cells` (delegates to the engine). -/
def available_cells (E : Engine σ) (g : Game σ) : List Cell :=
  E.available_cells g.engine

/-- `Game.winner`: None when the engine reports none, otherwise the seat
occupant at the engine's winner index (`self._players[self._game.winner]`,
which is itself None if that seat was vacated). -/
def winner (E : Engine σ) (g : Game σ) : Option String :=
  match E.winner g.engine with
  | none => none
  | some i => g.players.getD i.val none

/-- Seat the player at the first vacant index (the `for i in range(...)`
loop with `break` in `Game.join`). -/
def seatFirstFree : List (Option String) → String → List (Option String)
  | [], _ => []
  | none :: rest, pid => some pid :: rest
  | some q :: rest, pid => some q :: seatFirstFree rest pid

/-- `Game.join`: raises if the player is already seated, raises if the
game is full, otherwise fills the first vacant seat. -/
def join (g : Game σ) (pid : String) : Except String (Game σ) :=
  if g.has_player pid then
    .error "ValueError: player is already in the game"
  else if g.is_full then
    .error "ValueError: game is full, cannot join more players"
  else
    .ok { g with players := seatFirstFree g.players pid }

/-- Vacate the first seat holding the player (the loop with `break` in
`Game.leave`). -/
def vacateFirst : List (Option String) → String → List (Option String)
  | [], _ => []
  | none :: rest, pid => none :: vacateFirst rest pid
  | some q :: rest, pid =>
      if q = pid then none :: rest else some q :: vacateFirst rest pid

/-- `Game.leave`: raises if the player is not seated, otherwise vacates
their seat (sets it back to None). -/
def leave (g : Game σ) (pid : String) : Except String (Game σ) :=
  if g.has_player pid then
    .ok { g with players := vacateFirst g.players pid }
  else
    .error "ValueError: player is not in the game"

/-- `Game.start`: raises if not full; a no-op if already started;
otherwise records the timestamp and shuffles the two seats
(`sorted(self._players, key=lambda _: uuid.uuid4())` — for two seats the
random shuffle either keeps or swaps the order, given here by the `swap`
oracle). -/
def start (g : Game σ) (ts : Nat) (swap : Bool) : Except String (Game σ) :=
  if ¬ g.is_full then
    .error "ValueError: game cannot start, not enough players"
  else if g.start_timestamp.isSome then
    .ok g
  else
    .ok { g with start_timestamp := some ts,
                 players := if swap then g.players.reverse else g.players }

/-- `Game.choose_piece` (delegates to the engine; engine rejection is a
ValueError that propagates). -/
def choose_piece (E : Engine σ) (g : Game σ) (p : Piece) :
    Except String (Game σ) :=
  (E.choose_piece g.engine p).map (fun s => { g with engine := s })

/-- `Game.place_piece` (delegates to the engine). -/
def place_piece (E : Engine σ) (g : Game σ) (c : Cell) :
    Except String (Game σ) :=
  (E.place_piece g.engine c).map (fun s => { g with engine := s })

end Game

/-- `random.choice(xs)`: raises IndexError on an empty sequence, otherwise
picks the element at the oracle index `r` (reduced mod length). -/
def randomChoice {α : Type} (xs : List α) (r : Nat) : Except String α :=
  match xs with
  | [] => .error "IndexError: cannot choose from an empty sequence"
  | x :: rest => .ok ((x :: rest).getD (r % (x :: rest).length) x)

/-- The agent's `POST /choose-initial-piece` response (quarto_lib
`ChooseInitialPieceResponse`). -/
structure ChooseInitialPieceResponse where
  piece : Piece
deriving DecidableEq, Repr

/-- The agent's `POST /complete-turn` response (quarto_lib
`CompleteTurnResponse`): a cell to place at and an optional next piece. -/
structure CompleteTurnResponse where
  cell : Cell
  piece : Option Piece
deriving DecidableEq, Repr

namespace Game

/-- The part of `Game.agent_turn` that runs once the awaited
`complete_turn` network call resumes (game/game.py lines 127-138): on a
successful response place the returned cell and, if a piece was supplied,
choose it; on `RuntimeError` (unreachable / timeout / malformed response)
place a uniformly random available cell and, if `self.winner is None`
afterwards, choose a uniformly random available piece.  `turnResp` is the
awaited outcome; `rc`, `rp` are the random.choice oracles.  Note this
continuation consults only the game object: it takes no registry. -/
def agent_turn_resume (E : Engine σ) (g : Game σ)
    (turnResp : Except String CompleteTurnResponse) (rc rp : Nat) :
    Except String (Game σ) :=
  match turnResp with
  | .ok r => do
      let g1 ← g.place_piece E r.cell
      match r.piece with
      | some p => g1.choose_piece E p
      | none => .ok g1
  | .error _ => do
      let c ← randomChoice (g.available_cells E) rc
      let g1 ← g.place_piece E c
      if (g1.winner E).isNone then do
        let p ← randomChoice (g1.available_pieces E) rp
        g1.choose_piece E p
      else
        .ok g1

/-- `Game.agent_turn`: raises if no agent is configured or it is not the
agent's turn; when no current piece is designated, asks the agent for the
initial piece (falling back to a random available piece on failure);
otherwise runs the complete-turn exchange (`agent_turn_resume`).
`initResp` / `turnResp` are the agent-call outcomes, `rp0`, `rc`, `rp` the
random.choice oracles. -/
def agent_turn (E : Engine σ) (g : Game σ)
    (initResp : Except String ChooseInitialPieceResponse)
    (turnResp : Except String CompleteTurnResponse)
    (rp0 rc rp : Nat) : Except String (Game σ) :=
  match g.agent with
  | none => .error "ValueError: no agent configured for this game"
  | some aid =>
    if g.current_player E ≠ some aid then
      .error "ValueError: it is not the agent's turn"
    else
      match g.current_piece E with
      | none =>
        match initResp with
        | .ok r => g.choose_piece E r.piece
        | .error _ => do
            let p ← randomChoice (g.available_pieces E) rp0
            g.choose_piece E p
      | some _ => g.agent_turn_resume E turnResp rc rp

end Game

/-- The in-memory session registry (db.py, `InMemoryDB[str, Game]`): a
Python dict rendered as an insertion-ordered association list. -/
abbrev DB (σ : Type) := List (String × Game σ)

namespace DB

/-- `InMemoryDB.read`: the value at the key, or None. -/
def read (db : DB σ) (k : String) : Option (Game σ) :=
  (db.find? (fun kv => kv.1 = k)).map (fun kv => kv.2)

/-- `InMemoryDB.create`: raises KeyError when the key already exists,
otherwise inserts at the end (dict insertion order). -/
def create (db : DB σ) (k : String) (v : Game σ) : Except String (DB σ) :=
  if (db.find? (fun kv => kv.1 = k)).isSome then
    .error "KeyError: key already exists"
  else
    .ok (db ++ [(k, v)])

/-- `InMemoryDB.delete`: raises KeyError when the key is absent. -/
def delete (db : DB σ) (k : String) : Except String (DB σ) :=
  if (db.find? (fun kv => kv.1 = k)).isSome then
    .ok (db.filter (fun kv => ¬ kv.1 = k))
  else
    .error "KeyError: key does not exist"

/-- The values of `InMemoryDB.list_all()` (a point-in-time copy) in
insertion order. -/
def values (db : DB σ) : List (Game σ) :=
  db.map (fun kv => kv.2)

/-- Write-back of an in-place mutation of the game object stored under
key `k`: Python handlers mutate the object aliased by the dict, so the
registry sees the new value exactly at entries with that key. -/
def update_entry (db : DB σ) (k : String) (v : Game σ) : DB σ :=
  db.map (fun kv => if kv.1 = k then (k, v) else kv)

end DB

/-- The socket emissions of socket/handler.py (`Emits` plus payloads):
`to`-scoped emissions carry the recipient sid, room-scoped ones the room
name (= game id). -/
structure StateUpdatePayload where
  gameId : String
  currentTurn : Nat
  currentPlayerId : Option String
  currentPiece : Option Nat
  board : List (List (Option Nat))
  availablePieces : List Nat
  gameOver : Bool
  winnerId : Option String
  winningLines : List (List Cell)
deriving DecidableEq, Repr

inductive Emit where
  | gameLeft (dst : String) (gameId : String)
  | playerLeft (room : String) (playerId : String)
  | errorEv (dst : String) (key : String)
  | gameJoined (dst : String) (gameId : String) (players : List (Option String))
  | playerJoined (room : String) (playerId : String) (skip : String)
  | gameStarted (room : String)
  | stateUpdate (room : String) (u : StateUpdatePayload)
deriving DecidableEq, Repr

/-- `emit_game_state_update` (socket/handler.py lines 347-360): attempts
to build the state-update payload for the room broadcast, but evaluating
the keyword argument `game.is_game_over` (line 355) raises
AttributeError — the Game class in game/game.py defines neither
`is_game_over` nor `winning_lines` — so every call fails before the
payload is built or its emission is sent: no state update is ever
broadcast.  (`Emit.stateUpdate` and `StateUpdatePayload` model the
protocol event the source attempts and never produces.) -/
def emit_game_state_update (_E : Engine σ) (_g : Game σ) :
    Except String Emit :=
  .error "AttributeError: Game object has no attribute is_game_over"

/-- `leave_games(sid)` (socket/handler.py lines 91-109): over a snapshot
of the registry's values, for each game containing the client: vacate the
seat, emit game-left to the leaver, then delete the game when it is now
empty or is a pve (agent) session, otherwise emit player-left to the
room. -/
def leave_games (db : DB σ) (sid : String) :
    Except String (DB σ × List Emit) :=
  let games := (DB.values db).filter (fun g => g.has_player sid)
  if games.isEmpty then
    .ok (db, [])
  else
    games.foldlM
      (fun acc g => do
        let g' ← g.leave sid
        let db1 := DB.update_entry acc.1 g.id g'
        let ems := acc.2 ++ [Emit.gameLeft sid g.id]
        if g'.is_empty || g'.is_pve then do
          let db2 ← DB.delete db1 g.id
          pure (db2, ems)
        else
          pure (db1, ems ++ [Emit.playerLeft g.id sid]))
      (db, [])

/-- `join_game(sid, request)` (socket/handler.py lines 199-220): not-found
and full guards, then `leave_games(sid)` followed by `game.join(sid)` on
the object read before the leave.  Python aliasing: if that object itself
contained the client, `leave_games` already vacated its seat, so the join
operates on the vacated object (`aliasAfterLeave`). -/
def aliasAfterLeave (g : Game σ) (sid : String) : Game σ :=
  if g.has_player sid then { g with players := Game.vacateFirst g.players sid }
  else g

def join_game (db : DB σ) (sid gid : String) :
    Except String (DB σ × List Emit) :=
  match DB.read db gid with
  | none => .ok (db, [Emit.errorEv sid "ERR_GAME_NOT_FOUND"])
  | some g =>
    if g.is_full then
      .ok (db, [Emit.errorEv sid "ERR_GAME_FULL"])
    else do
      let r ← leave_games db sid
      let g2 ← (aliasAfterLeave g sid).join sid
      let db2 := DB.update_entry r.1 g.id g2
      pure (db2, r.2 ++
        [Emit.playerJoined g.id sid sid,
         Emit.gameJoined sid g.id g2.players])

/-- `start_game(sid, request)` (socket/handler.py lines 223-254):
not-found / not-in-game / no-opponent guards, then `game.start()`
(a no-op when already started), an INVALID_STATE guard on a missing
current player, then the game-started room emission — sent on every
accepted request, started or not — and finally the state-update
broadcast, which always raises (see `emit_game_state_update`).  The
result records the registry, the emissions actually sent before any
uncaught exception, and the handler outcome (`.error` = the handler
raised). -/
def start_game (E : Engine σ) (db : DB σ) (sid gid : String)
    (ts : Nat) (swap : Bool) : DB σ × List Emit × Except String Unit :=
  match DB.read db gid with
  | none => (db, [Emit.errorEv sid "ERR_GAME_NOT_FOUND"], .ok ())
  | some g =>
    if ¬ g.has_player sid then
      (db, [Emit.errorEv sid "ERR_NOT_IN_GAME"], .ok ())
    else if ¬ g.is_full then
      (db, [Emit.errorEv sid "ERR_NO_OPPONENT"], .ok ())
    else
      match g.start ts swap with
      | .error m => (db, [], .error m)
      | .ok g' =>
        let db1 := DB.update_entry db g.id g'
        if (g'.current_player E).isNone then
          (db1, [Emit.errorEv sid "ERR_INVALID_STATE"], .ok ())
        else
          match emit_game_state_update E g' with
          | .ok em2 => (db1, [Emit.gameStarted g.id, em2], .ok ())
          | .error m => (db1, [Emit.gameStarted g.id], .error m)

/-- `select_piece(sid, request)` (socket/handler.py lines 257-299): the
game is looked up by scanning the registry values for a matching id; the
guards are membership (GAME_NOT_FOUND), started (GAME_NOT_STARTED), turn
ownership (NOT_YOUR_TURN) and phase (INVALID_STATE); an engine rejection
of the piece emits INVALID_MOVE to the sender only.  On an accepted piece
the engine mutation persists, and the handler then attempts the
state-update broadcast, which always raises (see
`emit_game_state_update`) before anything is emitted, so the agent branch
is never reached.  The result records the registry, the emissions
actually sent before any uncaught exception, and the handler outcome. -/
def select_piece (E : Engine σ) (db : DB σ) (sid gid : String) (p : Piece)
    (initResp : Except String ChooseInitialPieceResponse)
    (turnResp : Except String CompleteTurnResponse)
    (rp0 rc rp : Nat) : DB σ × List Emit × Except String Unit :=
  match (DB.values db).find? (fun g => g.id = gid) with
  | none => (db, [Emit.errorEv sid "ERR_GAME_NOT_FOUND"], .ok ())
  | some g =>
    if ¬ g.has_player sid then
      (db, [Emit.errorEv sid "ERR_GAME_NOT_FOUND"], .ok ())
    else if ¬ g.is_started then
      (db, [Emit.errorEv sid "ERR_GAME_NOT_STARTED"], .ok ())
    else if g.current_player E ≠ some sid then
      (db, [Emit.errorEv sid "ERR_NOT_YOUR_TURN"], .ok ())
    else if g.current_turn E ≠ Turn.CHOICE then
      (db, [Emit.errorEv sid "ERR_INVALID_STATE"], .ok ())
    else
      match g.choose_piece E p with
      | .error _ => (db, [Emit.errorEv sid "ERR_INVALID_MOVE"], .ok ())
      | .ok g1 =>
        let db1 := DB.update_entry db g.id g1
        match emit_game_state_update E g1 with
        | .error m => (db1, [], .error m)
        | .ok em1 =>
          if g1.is_pve && g1.current_player E ≠ some sid then
            match g1.agent_turn E initResp turnResp rp0 rc rp with
            | .error m => (db1, [em1], .error m)
            | .ok g2 =>
              let db2 := DB.update_entry db1 g.id g2
              match emit_game_state_update E g2 with
              | .error m => (db2, [em1], .error m)
              | .ok em2 => (db2, [em1, em2], .ok ())
          else
            (db1, [em1], .ok ())

/-- The alphabet of `create_unique_game_id`:
`string.ascii_uppercase + string.digits`. -/
def idAlphabet : List Char :=
  "ABCDEFGHIJKLMNOPQRSTUVWXYZ0123456789".toList

/-- One sampled token: `"#" + ''.join(random.choices(alphabet, k=4))`,
the four draws given by oracle indices into the 36-char alphabet. -/
def mkToken (draw : Fin 36 × Fin 36 × Fin 36 × Fin 36) : String :=
  String.mk ['#', idAlphabet.getD draw.1.val 'A',
    idAlphabet.getD draw.2.1.val 'A',
    idAlphabet.getD draw.2.2.1.val 'A',
    idAlphabet.getD draw.2.2.2.val 'A']

/-- `create_unique_game_id` (socket/handler.py lines 125-130): snapshot
the live keys, then loop sampling tokens until one is absent from the
snapshot.  The source's `while True` is rendered with explicit fuel
(None = the loop has not yet found a fresh token). -/
def create_unique_game_id (existing : List String)
    (oracle : Nat → Fin 36 × Fin 36 × Fin 36 × Fin 36) :
    Nat → Nat → Option String
  | _, 0 => none
  | k, fuel + 1 =>
    let t := mkToken (oracle k)
    if t ∈ existing then create_unique_game_id existing oracle (k + 1) fuel
    else some t

/-- `create_game(sid)` (socket/handler.py lines 133-146): if the client
already occupies a session, return it unchanged; otherwise allocate a
token and call `Game(game_id)` — but `Game.__init__` (game/game.py line
15) accepts no id argument, so this constructor call raises `TypeError`
before any session is built or registered. -/
def create_game (db : DB σ) (sid : String)
    (oracle : Nat → Fin 36 × Fin 36 × Fin 36 × Fin 36) (fuel : Nat) :
    Except String (DB σ × Game σ × List Emit) :=
  match (DB.values db).filter (fun g => g.has_player sid) with
  | g :: _ => .ok (db, g, [])
  | [] =>
    match create_unique_game_id (db.map (fun kv => kv.1)) oracle 0 fuel with
    | none => .error "nontermination: id sampling never found a fresh token"
    | some _tok =>
      .error "TypeError: Game() takes 1 positional argument but 2 were given"

/-- Projection used by concrete evaluations: the emissions a handler run
actually sent (including those sent before an uncaught exception). -/
def emittedEvents (r : DB σ × List Emit × Except String Unit) : List Emit :=
  r.2.1

/-- Spec-side predicate for C6 (from the claim's words, not from the
code): `after` is `before` with the client seated at the lowest vacant
index. -/
def seatedAtLowestFree (before : List (Option String)) (pid : String)
    (after : List (Option String)) : Prop :=
  ∃ i, before.get? i = some none ∧
    (∀ j, j < i → before.get? j ≠ some none) ∧
    after = before.set i (some pid)

/-! Concrete engine instances used for witnesses and counterexamples.
Each is one legitimate inhabitant of the engine interface. -/

/-- A trivial engine in phase CHOICE whose `choose_piece` accepts. -/
def okEngine : Engine Unit where
  current_turn := fun _ => Turn.CHOICE
  current_player := fun _ => 0
  current_piece := fun _ => none
  board := fun _ => []
  available_pieces := fun _ => [0, 1]
  available_cells := fun _ => [(0, 0)]
  winner := fun _ => none
  is_game_over := fun _ => false
  winning_lines := fun _ => []
  choose_piece := fun s _ => .ok s
  place_piece := fun s _ => .ok s

/-- A trivial engine in phase CHOICE whose `choose_piece` rejects every
piece (e.g. the piece is already used). -/
def rejEngine : Engine Unit where
  current_turn := fun _ => Turn.CHOICE
  current_player := fun _ => 0
  current_piece := fun _ => none
  board := fun _ => []
  available_pieces := fun _ => []
  available_cells := fun _ => []
  winner := fun _ => none
  is_game_over := fun _ => false
  winning_lines := fun _ => []
  choose_piece := fun _ _ => .error "ValueError: piece is not available"
  place_piece := fun _ _ => .error "ValueError: cell is not available"

/-- A trivial engine in phase PLACEMENT (for the wrong-phase scenario). -/
def placeEngine : Engine Unit where
  current_turn := fun _ => Turn.PLACEMENT
  current_player := fun _ => 0
  current_piece := fun _ => some 0
  board := fun _ => []
  available_pieces := fun _ => []
  available_cells := fun _ => [(0, 0)]
  winner := fun _ => none
  is_game_over := fun _ => false
  winning_lines := fun _ => []
  choose_piece := fun s _ => .ok s
  place_piece := fun s _ => .ok s

/-- The last move of a drawn game: in state `false` the board holds 15
pieces, the 16th piece is the designated current piece and one cell is
free; placing it there (state `true`) fills the board with no winning
line, so the engine reports game over (a draw), no winner, and no
available pieces or cells. -/
def drawEngine : Engine Bool where
  current_turn := fun s => if s then Turn.CHOICE else Turn.PLACEMENT
  current_player := fun _ => 1
  current_piece := fun s => if s then none else some 15
  board := fun _ => []
  available_pieces := fun _ => []
  available_cells := fun s => if s then [] else [(3, 3)]
  winner := fun _ => none
  is_game_over := fun s => s
  winning_lines := fun _ => []
  choose_piece := fun _ _ => .error "ValueError: piece is not available"
  place_piece := fun s c =>
    if s = false ∧ c = (3, 3) then .ok true
    else .error "ValueError: cell is not available"

/-- A counting engine: each accepted move advances the state, so an
applied agent result is visible as a changed engine state. -/
def countEngine : Engine Nat where
  current_turn := fun _ => Turn.PLACEMENT
  current_player := fun _ => 1
  current_piece := fun _ => some 3
  board := fun _ => []
  available_pieces := fun _ => [1, 2]
  available_cells := fun _ => [(0, 0)]
  winner := fun _ => none
  is_game_over := fun _ => false
  winning_lines := fun _ => []
  choose_piece := fun n _ => .ok (n + 1)
  place_piece := fun n _ => .ok (n + 1)

/-! Concrete session fixtures. -/

/-- A session with one human seated and one free seat. -/
def gameHalf : Game Unit :=
  { id := "#G1", players := [some "a", none], engine := (),
    start_timestamp := none, agent := none }

/-- A full, not yet started, human-vs-human session. -/
def gameFull : Game Unit :=
  { id := "#G1", players := [some "a", some "b"], engine := (),
    start_timestamp := none, agent := none }

/-- A full, started, human-vs-human session. -/
def gameStartedAB : Game Unit :=
  { id := "#G1", players := [some "a", some "b"], engine := (),
    start_timestamp := some 0, agent := none }

/-- `gameStartedAB` after player "a" left: the seat is vacated while the
session stays started. -/
def gameStartedLeft : Game Unit :=
  { gameStartedAB with players := [none, some "b"] }

/-- A registry holding only `gameHalf`. -/
def dbHalf : DB Unit := [("#G1", gameHalf)]

/-- A registry holding only `gameStartedAB`. -/
def dbStarted : DB Unit := [("#G1", gameStartedAB)]

/-- A started agent (pve) session: human "h" in seat 0, agent in seat 1,
the agent to act, a complete-turn network call in flight. -/
def pveGame : Game Nat :=
  { id := "#P2", players := [some "h", some "agent-1"], engine := 0,
    start_timestamp := some 0, agent := some "agent-1" }

/-- The registry while the agent call is awaited. -/
def pveDB : DB Nat := [("#P2", pveGame)]

/-- The same session object after `leave_games "h"` vacated the human
seat (and deleted the session from the registry). -/
def pveGameAfterLeave : Game Nat :=
  { pveGame with players := [none, some "agent-1"] }

/-- The drawn-endgame pve session over `drawEngine`: the agent must place
the final piece. -/
def drawGame : Game Bool :=
  { id := "#P1", players := [some "h", some "agent-1"], engine := false,
    start_timestamp := some 0, agent := some "agent-1" }

/-! Helper lemmas about the registry and seat lists. -/

@[simp]
theorem exceptMap_error {ε α β : Type} (f : α → β) (m : ε) :
    (Except.error m : Except ε α).map f = .error m := rfl

@[simp]
theorem exceptMap_ok {ε α β : Type} (f : α → β) (a : α) :
    (Except.ok a : Except ε α).map f = .ok (f a) := rfl

@[simp]
theorem exceptBind_ok {ε α β : Type} (a : α) (f : α → Except ε β) :
    (Except.ok a : Except ε α) >>= f = f a := rfl

@[simp]
theorem exceptBind_error {ε α β : Type} (m : ε) (f : α → Except ε β) :
    (Except.error m : Except ε α) >>= f = .error m := rfl

@[simp]
theorem exceptPure {ε α : Type} (a : α) :
    (pure a : Except ε α) = .ok a := rfl

theorem DB.update_entry_keys {σ : Type} (db : DB σ) (k : String) (v : Game σ) :
    (DB.update_entry db k v).map (fun kv => kv.1) = db.map (fun kv => kv.1) := by
  simp only [DB.update_entry, List.map_map]
  refine List.map_congr_left (fun kv _ => ?_)
  by_cases h : kv.1 = k <;> simp [Function.comp, h]

theorem DB.update_entry_filter_ne {σ : Type} (db : DB σ) (k : String)
    (v : Game σ) :
    (DB.update_entry db k v).filter (fun kv => !decide (kv.1 = k))
      = db.filter (fun kv => !decide (kv.1 = k)) := by
  induction db with
  | nil => rfl
  | cons kv rest ih =>
      by_cases h : kv.1 = k <;>
        simp [DB.update_entry, List.filter_cons, h] at ih ⊢ <;>
        simpa using ih

theorem DB.update_entry_not_mem {σ : Type} (db : DB σ) (k : String)
    (v : Game σ) (h : k ∉ db.map (fun kv => kv.1)) :
    DB.update_entry db k v = db := by
  induction db with
  | nil => rfl
  | cons kv rest ih =>
      simp only [List.map_cons, List.mem_cons, not_or] at h
      have hk : ¬ kv.1 = k := fun he => h.1 he.symm
      simp only [DB.update_entry, List.map_cons, if_neg hk]
      have := ih h.2
      simp only [DB.update_entry] at this
      rw [this]

theorem DB.update_entry_read_self {σ : Type} (db : DB σ) (k : String)
    (v : Game σ) (hnd : (db.map (fun kv => kv.1)).Nodup)
    (hr : DB.read db k = some v) :
    DB.update_entry db k v = db := by
  induction db with
  | nil => simp [DB.read] at hr
  | cons kv rest ih =>
      simp only [List.map_cons, List.nodup_cons] at hnd
      by_cases h : kv.1 = k
      · have hv : kv.2 = v := by
          simp [DB.read, List.find?_cons, h] at hr
          exact hr
        have hrest : DB.update_entry rest k v = rest :=
          DB.update_entry_not_mem rest k v (h ▸ hnd.1)
        simp only [DB.update_entry, List.map_cons, if_pos h]
        simp only [DB.update_entry] at hrest
        rw [hrest]
        have hkv : (k, v) = kv := by rw [← h, ← hv]
        rw [hkv]
      · have hr' : DB.read rest k = some v := by
          simpa [DB.read, List.find?_cons, h] using hr
        simp only [DB.update_entry, List.map_cons, if_neg h]
        have := ih hnd.2 hr'
        simp only [DB.update_entry] at this
        rw [this]

theorem DB.read_id {σ : Type} (db : DB σ) (gid : String) (g : Game σ)
    (hwf : ∀ kv ∈ db, kv.1 = kv.2.id) (hr : DB.read db gid = some g) :
    g.id = gid := by
  unfold DB.read at hr
  cases hf : db.find? (fun kv => kv.1 = gid) with
  | none => simp [hf] at hr
  | some kv =>
      simp only [hf, Option.map_some'] at hr
      have h1 := List.find?_some hf
      have h2 := List.mem_of_find?_eq_some hf
      have h3 := hwf kv h2
      simp only [decide_eq_true_eq] at h1
      have h4 : kv.2 = g := Option.some.inj hr
      rw [← h4, ← h3]
      exact h1

theorem DB.find?_key_update_isSome {σ : Type} (db : DB σ) (k : String)
    (v : Game σ) (h : (db.find? (fun x => x.1 = k)).isSome) :
    ((DB.update_entry db k v).find? (fun x => x.1 = k)).isSome := by
  rw [List.find?_isSome] at h ⊢
  obtain ⟨x, hx, hpx⟩ := h
  simp only [decide_eq_true_eq] at hpx
  exact ⟨(k, v), List.mem_map.mpr ⟨x, hx, by simp [DB.update_entry, hpx]⟩,
    by simp⟩

theorem not_full_iff_none_mem (l : List (Option String)) :
    l.all (fun p => p.isSome) = false ↔ none ∈ l := by
  rw [← Bool.not_eq_true, List.all_eq_true]
  constructor
  · intro h
    by_contra hn
    apply h
    intro x hx
    cases x with
    | none => exact absurd hx hn
    | some q => rfl
  · intro h hall
    simpa using hall none h

theorem Game.vacateFirst_none_mem (l : List (Option String)) (pid : String)
    (h : none ∈ l) : none ∈ Game.vacateFirst l pid := by
  induction l with
  | nil => simp at h
  | cons x rest ih =>
      cases x with
      | none => simp [Game.vacateFirst]
      | some q =>
          have h' : none ∈ rest := by simpa using h
          by_cases hq : q = pid <;> simp [Game.vacateFirst, hq, ih h']

theorem Game.seatFirstFree_lowest (l : List (Option String)) (pid : String)
    (h : none ∈ l) : seatedAtLowestFree l pid (Game.seatFirstFree l pid) := by
  induction l with
  | nil => simp at h
  | cons x rest ih =>
      cases x with
      | none =>
          exact ⟨0, rfl, fun j hj => absurd hj (Nat.not_lt_zero j), rfl⟩
      | some q =>
          have h' : none ∈ rest := by simpa using h
          obtain ⟨i, h1, h2, h3⟩ := ih h'
          refine ⟨i + 1, by simpa using h1, ?_, ?_⟩
          · intro j hj
            cases j with
            | zero => simp
            | succ j' =>
                have := h2 j' (Nat.lt_of_succ_lt_succ hj)
                simpa using this
          · simp [Game.seatFirstFree, h3]

/-! Claim theorems. -/

/-- C10: at the session level, a join by an identity already occupying a
seat of that session raises a ValueError rather than re-seating
idempotently. -/
theorem C10_join_duplicate_rejected {σ : Type} (g : Game σ) (pid : String)
    (h : g.has_player pid = true) :
    g.join pid = .error "ValueError: player is already in the game" := by
  simp [Game.join, h]

theorem C10_join_duplicate_rejected_witness :
    gameHalf.has_player "a" = true ∧
    gameHalf.join "a" = .error "ValueError: player is already in the game" :=
  ⟨by decide, C10_join_duplicate_rejected gameHalf "a" (by decide)⟩

/-- C7: when the current actor of a started session selects a piece the
engine rejects during the CHOICE phase, `select_piece` emits INVALID_MOVE
to the sender only, broadcasts no state update, and leaves the registry
(hence the session's phase, actor, board and available pieces) exactly as
it was. -/
theorem C7_select_piece_invalid_move {σ : Type} (E : Engine σ) (db : DB σ)
    (sid gid : String) (p : Piece) (g : Game σ) (m : String)
    (ir : Except String ChooseInitialPieceResponse)
    (tr : Except String CompleteTurnResponse) (a b c : Nat)
    (hfind : (DB.values db).find? (fun x => x.id = gid) = some g)
    (hmem : g.has_player sid = true)
    (hst : g.is_started = true)
    (hcur : g.current_player E = some sid)
    (hturn : g.current_turn E = Turn.CHOICE)
    (hrej : E.choose_piece g.engine p = .error m) :
    select_piece E db sid gid p ir tr a b c
      = (db, [Emit.errorEv sid "ERR_INVALID_MOVE"], .ok ()) := by
  simp [select_piece, hfind, hmem, hst, hcur, hturn, Game.choose_piece, hrej]

theorem C7_select_piece_invalid_move_witness :
    rejEngine.choose_piece () 3 = .error "ValueError: piece is not available" ∧
    select_piece rejEngine dbStarted "a" "#G1" 3 (.error "e") (.error "e") 0 0 0
      = (dbStarted, [Emit.errorEv "a" "ERR_INVALID_MOVE"], .ok ()) :=
  ⟨by decide,
   C7_select_piece_invalid_move rejEngine dbStarted "a" "#G1" 3 gameStartedAB
     "ValueError: piece is not available" (.error "e") (.error "e") 0 0 0
     (by decide) (by decide) (by decide) (by decide) (by decide) (by decide)⟩

/-- C8: for a `select-piece` request naming an existing session, a
non-member sender gets GAME_NOT_FOUND, a seated sender who is not the
current actor of a started session gets NOT_YOUR_TURN, and the seated
current actor in the PLACEMENT phase gets INVALID_STATE. -/
theorem C8_select_piece_auth_errors {σ : Type} (E : Engine σ) (db : DB σ)
    (sid gid : String) (p : Piece) (g : Game σ)
    (ir : Except String ChooseInitialPieceResponse)
    (tr : Except String CompleteTurnResponse) (a b c : Nat)
    (hfind : (DB.values db).find? (fun x => x.id = gid) = some g) :
    (g.has_player sid = false →
      select_piece E db sid gid p ir tr a b c
        = (db, [Emit.errorEv sid "ERR_GAME_NOT_FOUND"], .ok ())) ∧
    (g.has_player sid = true → g.is_started = true →
      g.current_player E ≠ some sid →
      select_piece E db sid gid p ir tr a b c
        = (db, [Emit.errorEv sid "ERR_NOT_YOUR_TURN"], .ok ())) ∧
    (g.has_player sid = true → g.is_started = true →
      g.current_player E = some sid → g.current_turn E = Turn.PLACEMENT →
      select_piece E db sid gid p ir tr a b c
        = (db, [Emit.errorEv sid "ERR_INVALID_STATE"], .ok ())) := by
  refine ⟨fun h1 => ?_, fun h1 h2 h3 => ?_, fun h1 h2 h3 h4 => ?_⟩ <;>
    simp [select_piece, hfind, h1, *]

theorem C8_select_piece_auth_errors_witness :
    (select_piece rejEngine dbStarted "z" "#G1" 3 (.error "e") (.error "e") 0 0 0
       = (dbStarted, [Emit.errorEv "z" "ERR_GAME_NOT_FOUND"], .ok ())) ∧
    (select_piece rejEngine dbStarted "b" "#G1" 3 (.error "e") (.error "e") 0 0 0
       = (dbStarted, [Emit.errorEv "b" "ERR_NOT_YOUR_TURN"], .ok ())) ∧
    (select_piece placeEngine dbStarted "a" "#G1" 3 (.error "e") (.error "e") 0 0 0
       = (dbStarted, [Emit.errorEv "a" "ERR_INVALID_STATE"], .ok ())) :=
  ⟨(C8_select_piece_auth_errors rejEngine dbStarted "z" "#G1" 3 gameStartedAB
      (.error "e") (.error "e") 0 0 0 (by decide)).1 (by decide),
   (C8_select_piece_auth_errors rejEngine dbStarted "b" "#G1" 3 gameStartedAB
      (.error "e") (.error "e") 0 0 0 (by decide)).2.1 (by decide) (by decide)
      (by decide),
   (C8_select_piece_auth_errors placeEngine dbStarted "a" "#G1" 3 gameStartedAB
      (.error "e") (.error "e") 0 0 0 (by decide)).2.2 (by decide) (by decide)
      (by decide) (by decide)⟩

/-- C2 counterexample: the registry holds a session that is already
started, and issuing `start-game` for it again still emits game-started
to the room — so the room does receive a duplicate game-started emission
beyond the first, contrary to the claim. -/
theorem C2_counterexample :
    (DB.read dbStarted "#G1").map (fun g => g.is_started) = some true ∧
    Emit.gameStarted "#G1" ∈
      emittedEvents (start_game okEngine dbStarted "a" "#G1" 7 false) := by
  decide

/-- C2 amended: re-issuing `start-game` on an already-started full
session changes no seat assignment or order and emits no error event
(`Game.start` is a no-op then), but the handler still emits game-started
to the room on every accepted request — a duplicate emission — after
which its state-update broadcast raises AttributeError (the Game class
lacks `is_game_over` / `winning_lines`), so the handler aborts without
emitting a state update. -/
theorem C2_amended_start_reemits {σ : Type} (E : Engine σ) (db : DB σ)
    (sid gid : String) (ts : Nat) (swap : Bool) (g : Game σ)
    (hnd : (db.map (fun kv => kv.1)).Nodup)
    (hwf : ∀ kv ∈ db, kv.1 = kv.2.id)
    (hr : DB.read db gid = some g)
    (hmem : g.has_player sid = true)
    (hfull : g.is_full = true)
    (hst : g.is_started = true)
    (hcp : (g.current_player E).isSome = true) :
    start_game E db sid gid ts swap
      = (db, [Emit.gameStarted g.id],
          .error "AttributeError: Game object has no attribute is_game_over") := by
  have hid : g.id = gid := DB.read_id db gid g hwf hr
  have hts : g.start_timestamp.isSome = true := hst
  have hstart : g.start ts swap = .ok g := by
    simp [Game.start, hfull, hts]
  have hupd : DB.update_entry db g.id g = db := by
    rw [hid]
    exact DB.update_entry_read_self db gid g hnd hr
  simp [start_game, hr, hmem, hfull, hstart, hupd, hcp,
    emit_game_state_update, Option.isNone_iff_eq_none,
    Option.ne_none_iff_isSome]

theorem C2_amended_start_reemits_witness :
    start_game okEngine dbStarted "a" "#G1" 7 false
      = (dbStarted, [Emit.gameStarted "#G1"],
          .error "AttributeError: Game object has no attribute is_game_over") :=
  C2_amended_start_reemits okEngine dbStarted "a" "#G1" 7 false gameStartedAB
    (by decide) (by decide) (by decide) (by decide) (by decide) (by decide)
    (by decide)

/-- C4 counterexample: in a started two-human session, a leave vacates
the leaver's seat while the session stays started, so the mapping from
seat index to participant identity changes after the ACTIVE transition,
contrary to the claim. -/
theorem C4_counterexample :
    gameStartedAB.is_started = true ∧
    leave_games dbStarted "a"
      = .ok ([("#G1", gameStartedLeft)],
          [Emit.gameLeft "a" "#G1", Emit.playerLeft "#G1" "a"]) ∧
    gameStartedLeft.is_started = true ∧
    gameStartedLeft.players ≠ gameStartedAB.players := by
  decide

/-- C4 amended: the random seat order is computed exactly once, at the
transition to started — a later `start` on a started full session is a
no-op that reassigns nothing — but the seat-to-identity mapping may still
change afterwards, because `leave` vacates the leaver's seat (and `join`,
which never checks `is_started`, can then seat a newcomer). -/
theorem C4_amended_start_assigns_order_once {σ : Type} (g : Game σ)
    (ts : Nat) (swap : Bool)
    (hfull : g.is_full = true) (hst : g.is_started = true) :
    g.start ts swap = .ok g := by
  have hts : g.start_timestamp.isSome = true := hst
  simp [Game.start, hfull, hts]

theorem C4_amended_start_assigns_order_once_witness :
    gameStartedAB.is_started = true ∧
    gameStartedAB.start 9 true = .ok gameStartedAB :=
  ⟨by decide,
   C4_amended_start_assigns_order_once gameStartedAB 9 true (by decide)
     (by decide)⟩

/-- C1: in the fallback path of `agent_turn`, the next-piece selection is
guarded by `winner is None` rather than by game over; when the fallback
placement fills the board with no winner (a draw), the engine reports the
game over, yet the code still calls `random.choice` on the now-empty
available-pieces list and the turn raises IndexError instead of
completing without error. -/
theorem C1_agent_fallback_draw_crash :
    drawEngine.is_game_over true = true ∧
    drawEngine.winner true = none ∧
    Game.agent_turn drawEngine drawGame (.error "RuntimeError: unreachable")
      (.error "RuntimeError: timeout") 0 0 0
      = .error "IndexError: cannot choose from an empty sequence" := by
  decide

/-- C5: on a fresh session request the allocator does yield a fresh
5-character token, but `create_game` then calls `Game(game_id)` while
`Game.__init__` accepts no id argument, so the constructor call raises
TypeError and no session is registered under (or identified by) the
token. -/
theorem C5_create_game_raises_type_error :
    create_unique_game_id ([] : List String) (fun _ => (0, 0, 0, 0)) 0 1
      = some "#AAAA" ∧
    create_game ([] : DB Unit) "x" (fun _ => (0, 0, 0, 0)) 1
      = .error "TypeError: Game() takes 1 positional argument but 2 were given" := by
  decide

/-- C3: for a client occupying exactly one session, `leave_games` vacates
the client's seat, emits game-left to the leaver, and then deletes the
session from the registry exactly when it has become fully empty or it is
an agent (pve) session whose human occupant just left; otherwise it keeps
the vacated session registered and emits player-left to the room. -/
theorem C3_leave_games_spec {σ : Type} (db : DB σ) (sid : String) (g : Game σ)
    (hwf : ∀ kv ∈ db, kv.1 = kv.2.id)
    (h1 : (DB.values db).filter (fun x => x.has_player sid) = [g]) :
    leave_games db sid =
      (if ({ g with players := Game.vacateFirst g.players sid } : Game σ).is_empty
          || ({ g with players := Game.vacateFirst g.players sid } : Game σ).is_pve then
        Except.ok (db.filter (fun kv => ¬ kv.1 = g.id),
          [Emit.gameLeft sid g.id])
      else
        Except.ok
          (DB.update_entry db g.id
             { g with players := Game.vacateFirst g.players sid },
           [Emit.gameLeft sid g.id, Emit.playerLeft g.id sid])) := by
  have hmem : g ∈ (DB.values db).filter (fun x => x.has_player sid) := by
    rw [h1]
    exact List.mem_singleton.mpr rfl
  have hgp : g.has_player sid = true := by
    simpa using (List.mem_filter.mp hmem).2
  have hgv : g ∈ DB.values db := (List.mem_filter.mp hmem).1
  obtain ⟨kv, hkv, hkv2⟩ := List.mem_map.mp hgv
  have hkey : kv.1 = g.id := by rw [hwf kv hkv, hkv2]
  have hfind : (db.find? (fun x => x.1 = g.id)).isSome := by
    rw [List.find?_isSome]
    exact ⟨kv, hkv, by simp [hkey]⟩
  have hleave : g.leave sid
      = Except.ok { g with players := Game.vacateFirst g.players sid } := by
    simp [Game.leave, hgp]
  have hfind' := DB.find?_key_update_isSome db g.id
    { g with players := Game.vacateFirst g.players sid } hfind
  unfold leave_games
  rw [h1]
  simp only [List.isEmpty_cons, List.foldlM, hleave, exceptBind_ok]
  by_cases hb :
      (({ g with players := Game.vacateFirst g.players sid } : Game σ).is_empty
        || ({ g with players := Game.vacateFirst g.players sid } : Game σ).is_pve) = true
  · simp [hb, DB.delete, hfind', DB.update_entry_filter_ne]
  · rw [Bool.not_eq_true] at hb
    simp [hb]

theorem C3_leave_games_spec_witness :
    (∀ kv ∈ dbStarted, kv.1 = kv.2.id) ∧
    leave_games dbStarted "a"
      = .ok ([("#G1", gameStartedLeft)],
          [Emit.gameLeft "a" "#G1", Emit.playerLeft "#G1" "a"]) := by
  refine ⟨by decide, ?_⟩
  have h := C3_leave_games_spec dbStarted "a" gameStartedAB (by decide)
    (by decide)
  rw [h]
  decide

/-- C6: a join request fails with GAME_NOT_FOUND exactly when the id is
unknown to the registry, fails with GAME_FULL when both seats of the
found session are occupied, and otherwise first removes the client from
every session they occupy (`leave_games`) and then seats them in the free
seat with the lowest index of the target session. -/
theorem C6_join_game_spec {σ : Type} (db : DB σ) (sid gid : String) :
    (DB.read db gid = none →
      join_game db sid gid
        = .ok (db, [Emit.errorEv sid "ERR_GAME_NOT_FOUND"])) ∧
    (∀ g, DB.read db gid = some g → g.is_full = true →
      join_game db sid gid = .ok (db, [Emit.errorEv sid "ERR_GAME_FULL"])) ∧
    (∀ g db1 ems1, DB.read db gid = some g → g.is_full = false →
      leave_games db sid = .ok (db1, ems1) →
      (aliasAfterLeave g sid).has_player sid = false →
      ∃ g2, (aliasAfterLeave g sid).join sid = .ok g2 ∧
        seatedAtLowestFree (aliasAfterLeave g sid).players sid g2.players ∧
        join_game db sid gid
          = .ok (DB.update_entry db1 g.id g2,
              ems1 ++ [Emit.playerJoined g.id sid sid,
                Emit.gameJoined sid g.id g2.players])) := by
  refine ⟨fun h0 => ?_, fun g hr hfull => ?_, fun g db1 ems1 hr hfull hlv halias => ?_⟩
  · simp [join_game, h0]
  · simp [join_game, hr, hfull]
  · have hnone : none ∈ g.players := (not_full_iff_none_mem g.players).mp hfull
    have hnone' : none ∈ (aliasAfterLeave g sid).players := by
      unfold aliasAfterLeave
      by_cases hp : g.has_player sid = true
      · simp only [hp, if_true]
        exact Game.vacateFirst_none_mem g.players sid hnone
      · simp only [hp]
        simpa [hp] using hnone
    have hfull' : (aliasAfterLeave g sid).is_full = false :=
      (not_full_iff_none_mem (aliasAfterLeave g sid).players).mpr hnone'
    have hjoin : (aliasAfterLeave g sid).join sid
        = .ok { aliasAfterLeave g sid with
            players := Game.seatFirstFree (aliasAfterLeave g sid).players sid } := by
      simp [Game.join, halias, hfull']
    refine ⟨_, hjoin, Game.seatFirstFree_lowest _ sid hnone', ?_⟩
    simp [join_game, hr, hfull, hlv, hjoin]

theorem C6_join_game_spec_witness :
    ∃ g2, (aliasAfterLeave gameHalf "b").join "b" = .ok g2 ∧
      seatedAtLowestFree (aliasAfterLeave gameHalf "b").players "b" g2.players ∧
      join_game dbHalf "b" "#G1"
        = .ok (DB.update_entry dbHalf "#G1" g2,
            [Emit.playerJoined "#G1" "b" "b",
             Emit.gameJoined "b" "#G1" g2.players]) :=
  (C6_join_game_spec dbHalf "b" "#G1").2.2 gameHalf dbHalf [] (by decide)
    (by decide) (by decide) (by decide)

/-- C9 counterexample: with an agent (pve) session whose complete-turn
call is in flight, the human's leave deletes the session from the
registry; when the suspended agent call resumes, `agent_turn_resume`
still applies the response to the session object — the engine state
advances — instead of re-validating that the session exists and
discarding the result, and `agent_turn_resume` consults no registry at
all. -/
theorem C9_counterexample :
    leave_games pveDB "h" = .ok ([], [Emit.gameLeft "h" "#P2"]) ∧
    DB.read ([] : DB Nat) "#P2" = none ∧
    Game.agent_turn_resume countEngine pveGameAfterLeave
      (.ok { cell := (0, 0), piece := some 1 }) 0 0
      = .ok { pveGameAfterLeave with engine := 2 } := by
  decide

/-- C9 amended: state-mutating operations are sequenced only by the
single-threaded cooperative event loop — there is no per-session
exclusion mechanism — and when the agent's complete-turn call resumes its
result is applied unconditionally: the continuation takes no registry and
re-validates nothing, so a successful response is always placed (and its
piece chosen) on the retained session object. -/
theorem C9_amended_resume_applies_unconditionally {σ : Type} (E : Engine σ)
    (g g1 g2 : Game σ) (r : CompleteTurnResponse) (p : Piece) (rc rp : Nat)
    (hcell : g.place_piece E r.cell = .ok g1)
    (hp : r.piece = some p) (hchoose : g1.choose_piece E p = .ok g2) :
    g.agent_turn_resume E (.ok r) rc rp = .ok g2 := by
  simp [Game.agent_turn_resume, hcell, hp, hchoose]

theorem C9_amended_resume_applies_unconditionally_witness :
    Game.agent_turn_resume countEngine pveGameAfterLeave
      (.ok { cell := (0, 0), piece := some 1 }) 0 0
      = .ok { pveGameAfterLeave with engine := 2 } :=
  C9_amended_resume_applies_unconditionally countEngine pveGameAfterLeave
    { pveGameAfterLeave with engine := 1 } { pveGameAfterLeave with engine := 2 }
    { cell := (0, 0), piece := some 1 } 1 0 0 (by decide) rfl (by decide)

end QB
